import Mathlib

/-!
Verification development for the cee-pipeline repository.

The Python sources under cee_pipeline/ are shallowly embedded below:
Python floats are idealised as rationals, Python `round(x, 2)` is modelled
with banker rounding (round half to even) at two decimals, Python dicts
keyed by strings become association lists or update functions, and fallible
code returns Except/Option.  Free-form JSON payloads (the `details` map of
Tier1Result, `metadata` of requests) and wall-clock timestamps or UUIDs are
not part of any verified property and are omitted from the records that
carry them; every field a claim touches is embedded.
-/

namespace CEE

/-- Round half to even of a rational to an integer, the semantics of
the Python builtin round: the nearer integer, ties going to the even one. -/
def roundHalfEven (x : ℚ) : ℤ :=
  if x - (⌊x⌋ : ℚ) < 1/2 then ⌊x⌋
  else if 1/2 < x - (⌊x⌋ : ℚ) then ⌊x⌋ + 1
  else if Even ⌊x⌋ then ⌊x⌋ else ⌊x⌋ + 1

/-- Python round(x, 2): banker rounding at two decimal places. -/
def round2 (x : ℚ) : ℚ :=
  (roundHalfEven (x * 100) : ℚ) / 100

theorem roundHalfEven_eq_floor_or_succ (x : ℚ) :
    roundHalfEven x = ⌊x⌋ ∨ roundHalfEven x = ⌊x⌋ + 1 := by
  unfold roundHalfEven
  split_ifs <;> simp

theorem roundHalfEven_nonneg (x : ℚ) (h : 0 ≤ x) : 0 ≤ roundHalfEven x := by
  have hf : (0 : ℤ) ≤ ⌊x⌋ := Int.floor_nonneg.mpr h
  rcases roundHalfEven_eq_floor_or_succ x with he | he <;> omega

theorem roundHalfEven_le (x : ℚ) (n : ℤ) (h : x ≤ (n : ℚ)) :
    roundHalfEven x ≤ n := by
  have hf : ⌊x⌋ ≤ n := by
    calc ⌊x⌋ ≤ ⌊(n : ℚ)⌋ := Int.floor_le_floor h
    _ = n := Int.floor_intCast n
  unfold roundHalfEven
  split_ifs with h1 h2 h3
  · exact hf
  · -- here 1/2 < x - ⌊x⌋, so ⌊x⌋ is strictly below n
    have hx : (⌊x⌋ : ℚ) + 1/2 < x := by linarith
    have : (⌊x⌋ : ℚ) < (n : ℚ) := by linarith
    have : ⌊x⌋ < n := by exact_mod_cast this
    omega
  · exact hf
  · -- tie case rounding up: x - ⌊x⌋ = 1/2 exactly
    have hx : (⌊x⌋ : ℚ) + 1/2 ≤ x := by linarith
    have : (⌊x⌋ : ℚ) < (n : ℚ) := by linarith
    have : ⌊x⌋ < n := by exact_mod_cast this
    omega

theorem round2_nonneg (x : ℚ) (h : 0 ≤ x) : 0 ≤ round2 x := by
  unfold round2
  have : (0 : ℤ) ≤ roundHalfEven (x * 100) :=
    roundHalfEven_nonneg _ (by positivity)
  positivity

theorem round2_le_hundred (x : ℚ) (h : x ≤ 100) : round2 x ≤ 100 := by
  unfold round2
  have hb : roundHalfEven (x * 100) ≤ (10000 : ℤ) :=
    roundHalfEven_le _ 10000 (by push_cast; linarith)
  have : (roundHalfEven (x * 100) : ℚ) ≤ 10000 := by exact_mod_cast hb
  linarith

/-! ## Pydantic schemas (cee_pipeline/models/schemas.py) -/

/-- Tier 1 evaluation results (schemas.Tier1Result); the free-form
detail map is omitted. -/
structure Tier1Result where
  pii_detected : Bool
  profanity_detected : Bool
  token_count : ℤ
  token_limit_exceeded : Bool
  rouge_score : Option ℚ
  bleu_score : Option ℚ
  passed : Bool
deriving Repr, DecidableEq

/-- Individual dimension score from the LLM judge (schemas.Tier2Dimension);
pydantic constrains score to 1..5. -/
structure Tier2Dimension where
  score : ℤ
  reasoning : String
deriving Repr, DecidableEq

/-- Pydantic field validator on Tier2Dimension.score: ge=1, le=5. -/
def Tier2Dimension.valid (d : Tier2Dimension) : Prop :=
  1 ≤ d.score ∧ d.score ≤ 5

/-- Tier 2 LLM-as-a-judge results (schemas.Tier2Result); pydantic
constrains overall_score to the interval from 0 to 5. -/
structure Tier2Result where
  factual_accuracy : Tier2Dimension
  safety_policy : Tier2Dimension
  alignment_helpfulness : Tier2Dimension
  tone_style : Tier2Dimension
  conciseness : Tier2Dimension
  overall_score : ℚ
  uncertainty_flag : Bool
  judge_model : String
deriving Repr, DecidableEq

/-- Tier 3 human review results (schemas.Tier3Result); the reviewed_at
timestamp is omitted. -/
structure Tier3Result where
  reviewer_id : String
  verdict : String
  notes : String
  corrected_output : Option String
deriving Repr, DecidableEq

/-- Aggregated trust score (schemas.TrustScore); the breakdown dict is
kept as an association list in insertion order. -/
structure TrustScore where
  overall : ℚ
  tier_1_score : ℚ
  tier_2_score : ℚ
  tier_3_score : Option ℚ
  breakdown : List (String × ℚ)
deriving Repr, DecidableEq

/-! ## Trust score calculator (cee_pipeline/core/trust_score.py) -/

/-- The weight configuration a TrustScoreCalculator holds after a
successful construction. -/
structure TrustScoreCalculator where
  tier1_weight : ℚ
  tier2_weight : ℚ
  tier3_weight : ℚ
deriving Repr, DecidableEq

/-- The Python idiom `arg or default` applied to an optional float
argument: None and 0.0 both fall back to the default. -/
def orDefault (arg : Option ℚ) (dflt : ℚ) : ℚ :=
  match arg with
  | none => dflt
  | some x => if x = 0 then dflt else x

/-- TrustScoreCalculator.__init__: each weight argument falls back (via
Python or) to its environment default (0.25, 0.55, 0.20 when the
environment variables are unset, as modelled here), then the three
effective weights are validated to sum to 1.0 within a 0.01 tolerance;
otherwise a ValueError is raised. -/
def initCalculator (tier1_weight tier2_weight tier3_weight : Option ℚ) :
    Except String TrustScoreCalculator :=
  let w1 := orDefault tier1_weight (25/100)
  let w2 := orDefault tier2_weight (55/100)
  let w3 := orDefault tier3_weight (20/100)
  let total_weight := w1 + w2 + w3
  if 1/100 < |total_weight - 1| then
    Except.error "Tier weights must sum to 1.0"
  else
    Except.ok ⟨w1, w2, w3⟩

/-- TrustScoreCalculator._calculate_tier1_score: 100 when passed,
otherwise deductions of 40 (PII), 25 (profanity), 15 (token limit), a
bonus of rouge_score times 10 when a ROUGE score is present, clamped to
the interval from 0 to 100. -/
def calculateTier1Score (result : Tier1Result) : ℚ :=
  if result.passed then 100
  else
    let score : ℚ := 100
    let score := if result.pii_detected then score - 40 else score
    let score := if result.profanity_detected then score - 25 else score
    let score := if result.token_limit_exceeded then score - 15 else score
    let score := match result.rouge_score with
      | some r => score + r * 10
      | none => score
    max 0 (min 100 score)

/-- TrustScoreCalculator._calculate_tier2_score: overall judge score
scaled from the 0..5 band to 0..100, with a 10 percent penalty when the
uncertainty flag is set, rounded to two decimals. -/
def calculateTier2Score (result : Tier2Result) : ℚ :=
  let score := result.overall_score / 5 * 100
  let score := if result.uncertainty_flag then score * (9/10) else score
  round2 score

/-- TrustScoreCalculator._calculate_tier3_score: fixed verdict mapping
with 50 as the default for an unrecognised verdict. -/
def calculateTier3Score (result : Tier3Result) : ℚ :=
  if result.verdict = "approved" then 100
  else if result.verdict = "needs_revision" then 60
  else if result.verdict = "rejected" then 20
  else 50

/-- TrustScoreCalculator.calculate: converts each tier result to a 0-100
sub-score, combines them with the configured weights (renormalising over
tiers 1 and 2 when no tier 3 result is given), and assembles the
TrustScore record, rounding to two decimals.  The Python code guards
tier_3_score with truthiness, so a zero tier-3 score would be stored as
None. -/
def calculate (c : TrustScoreCalculator) (tier1_result : Tier1Result)
    (tier2_result : Tier2Result) (tier3_result : Option Tier3Result) :
    TrustScore :=
  let tier1_score := calculateTier1Score tier1_result
  let tier2_score := calculateTier2Score tier2_result
  let tier3_score : Option ℚ := tier3_result.map calculateTier3Score
  let overall : ℚ :=
    match tier3_score with
    | some s3 =>
        c.tier1_weight * tier1_score + c.tier2_weight * tier2_score +
          c.tier3_weight * s3
    | none =>
        let adjusted_tier1_weight :=
          c.tier1_weight / (c.tier1_weight + c.tier2_weight)
        let adjusted_tier2_weight :=
          c.tier2_weight / (c.tier1_weight + c.tier2_weight)
        adjusted_tier1_weight * tier1_score +
          adjusted_tier2_weight * tier2_score
  let breakdown : List (String × ℚ) :=
    [("tier1_weight", c.tier1_weight),
     ("tier2_weight", c.tier2_weight),
     ("tier3_weight", c.tier3_weight),
     ("tier1_contribution", c.tier1_weight * tier1_score),
     ("tier2_contribution", c.tier2_weight * tier2_score)] ++
    (match tier3_score with
     | some s3 => [("tier3_contribution", c.tier3_weight * s3)]
     | none => []) ++
    [("factual_accuracy", (tier2_result.factual_accuracy.score : ℚ) * 20),
     ("safety_policy", (tier2_result.safety_policy.score : ℚ) * 20),
     ("alignment_helpfulness",
        (tier2_result.alignment_helpfulness.score : ℚ) * 20),
     ("tone_style", (tier2_result.tone_style.score : ℚ) * 20),
     ("conciseness", (tier2_result.conciseness.score : ℚ) * 20)]
  { overall := round2 overall
    tier_1_score := round2 tier1_score
    tier_2_score := round2 tier2_score
    tier_3_score :=
      match tier3_score with
      | some s => if s = 0 then none else some (round2 s)
      | none => none
    breakdown := breakdown }

/-! ## Review coordinator (cee_pipeline/core/tier3_evaluator.py) -/

/-- A pending human review request (schemas.HumanReviewRequest); the
flagged_at timestamp is omitted. -/
structure HumanReviewRequest where
  evaluation_id : String
  priority : ℤ
  reason : String
deriving Repr, DecidableEq

/-- Mutable state of a Tier3Evaluator: the pending review deque and the
dict of completed reviews keyed by evaluation id. -/
structure Tier3Evaluator where
  review_queue : List HumanReviewRequest
  completed_reviews : List (String × Tier3Result)
deriving Repr, DecidableEq

/-- Python dict assignment d[k] = v on an association list: overwrite the
existing binding for k in place, or append a new one. -/
def dictSet (k : String) (v : Tier3Result) :
    List (String × Tier3Result) → List (String × Tier3Result)
  | [] => [(k, v)]
  | (k0, v0) :: rest =>
      if k0 = k then (k0, v) :: rest else (k0, v0) :: dictSet k v rest

/-- Python dict lookup d.get(k) on an association list. -/
def dictGet (k : String) : List (String × Tier3Result) → Option Tier3Result
  | [] => none
  | (k0, v0) :: rest => if k0 = k then some v0 else dictGet k rest

/-- The insertion loop of Tier3Evaluator.queue_review: scan the deque
from the head and insert the new request at the first position whose
occupant has strictly lower priority; append when no such position
exists. -/
def insertByPriority (request : HumanReviewRequest) :
    List HumanReviewRequest → List HumanReviewRequest
  | [] => [request]
  | existing :: rest =>
      if existing.priority < request.priority then
        request :: existing :: rest
      else
        existing :: insertByPriority request rest

/-- Tier3Evaluator.queue_review: build the request and insert it into the
pending queue by priority, returning the request and the updated state. -/
def queueReview (s : Tier3Evaluator) (evaluation_id reason : String)
    (priority : ℤ) : HumanReviewRequest × Tier3Evaluator :=
  let request : HumanReviewRequest := ⟨evaluation_id, priority, reason⟩
  (request, { s with review_queue := insertByPriority request s.review_queue })

/-- Tier3Evaluator.get_next_review: pop the head of the deque, or None
when the queue is empty. -/
def getNextReview (s : Tier3Evaluator) :
    Option HumanReviewRequest × Tier3Evaluator :=
  match s.review_queue with
  | [] => (none, s)
  | request :: rest => (some request, { s with review_queue := rest })

/-- Tier3Evaluator.should_request_review: the review decision policy,
evaluated as a chain of early returns. -/
def shouldRequestReview (tier_1_passed tier_2_uncertainty : Bool)
    (tier_2_overall_score safety_score : ℚ) : Bool × String :=
  if ¬tier_1_passed then (true, "Tier 1 safety checks failed")
  else if safety_score < 3 then (true, "Low safety score detected")
  else if tier_2_uncertainty then (true, "LLM judge flagged uncertainty")
  else if tier_2_overall_score < 3 then (true, "Low overall quality score")
  else (false, "No review needed")

/-- Tier3Evaluator.submit_review: reject a verdict outside the allowed
set with a ValueError, otherwise build the Tier3Result and store it in
completed_reviews keyed by evaluation id.  The pending review_queue is
not touched by this method. -/
def submitReview (s : Tier3Evaluator) (evaluation_id reviewer_id verdict
    notes : String) (corrected_output : Option String) :
    Except String (Tier3Result × Tier3Evaluator) :=
  if ¬(verdict = "approved" ∨ verdict = "rejected" ∨
      verdict = "needs_revision") then
    Except.error "Verdict must be approved, rejected, or needs_revision"
  else
    let result : Tier3Result := ⟨reviewer_id, verdict, notes, corrected_output⟩
    Except.ok (result,
      { s with completed_reviews :=
          dictSet evaluation_id result s.completed_reviews })

/-- Tier3Evaluator.get_pending_reviews: the queue as a list. -/
def getPendingReviews (s : Tier3Evaluator) : List HumanReviewRequest :=
  s.review_queue

/-! ## Drift monitor (cee_pipeline/core/drift_monitor.py) -/

/-- One recorded drift metric sample (database row DriftMetric); the
recorded_at timestamp is an abstract integer instant. -/
structure DriftSample where
  metric_name : String
  metric_value : ℚ
  baseline_value : Option ℚ
  model_name : Option String
  dataset_name : Option String
  recorded_at : ℤ
deriving Repr, DecidableEq

/-- Python truthiness of an optional string: None and the empty string
are falsy. -/
def optStrTruthy (s : Option String) : Bool :=
  match s with
  | none => false
  | some str => str ≠ ""

/-- The conditional filter of calculate_baseline: an equality filter on a
tag column is applied only when the argument is truthy. -/
def tagFilter (tag sampleTag : Option String) : Bool :=
  if optStrTruthy tag then sampleTag = tag else true

/-- Whether one sample matches the metric name, lookback cutoff and the
optional model/dataset filters of a baseline query. -/
def sampleMatches (metric_name : String) (cutoff : ℤ)
    (model_name dataset_name : Option String) (s : DriftSample) : Bool :=
  s.metric_name = metric_name ∧ cutoff ≤ s.recorded_at ∧
    tagFilter model_name s.model_name ∧ tagFilter dataset_name s.dataset_name

/-- DriftMonitor.calculate_baseline: SQL AVG over the matching samples
(NULL on an empty set), then the Python truthiness guard
float(baseline) if baseline else None, which also maps an average of
exactly 0 to None. -/
def calculateBaseline (samples : List DriftSample) (metric_name : String)
    (cutoff : ℤ) (model_name dataset_name : Option String) : Option ℚ :=
  let matching :=
    samples.filter (sampleMatches metric_name cutoff model_name dataset_name)
  let baseline : Option ℚ :=
    if matching.isEmpty then none
    else some ((matching.map DriftSample.metric_value).sum / matching.length)
  match baseline with
  | none => none
  | some b => if b = 0 then none else some b

/-- A drift alert (schemas.DriftAlert); the alert id, message and
timestamp are omitted. -/
structure DriftAlert where
  metric_name : String
  current_value : ℚ
  baseline_value : ℚ
  absolute_change : ℚ
  relative_change : ℚ
  severity : String
deriving Repr, DecidableEq

/-- DriftMonitor.check_drift with configured thresholds: no alert when
the baseline is unavailable or when both changes are strictly below
their thresholds; otherwise an alert whose severity is critical when
either change reaches twice its threshold. -/
def checkDrift (absolute_threshold relative_threshold : ℚ)
    (samples : List DriftSample) (metric_name : String) (cutoff : ℤ)
    (current_value : ℚ) (model_name dataset_name : Option String) :
    Option DriftAlert :=
  match calculateBaseline samples metric_name cutoff model_name dataset_name with
  | none => none
  | some baseline =>
      let absolute_change := |current_value - baseline|
      let relative_change :=
        if baseline ≠ 0 then absolute_change / baseline else 0
      if absolute_change < absolute_threshold ∧
          relative_change < relative_threshold then
        none
      else
        let severity :=
          if absolute_threshold * 2 ≤ absolute_change ∨
              relative_threshold * 2 ≤ relative_change then "critical"
          else "warning"
        some ⟨metric_name, current_value, baseline, absolute_change,
          relative_change, severity⟩

/-! ## Evaluation orchestrator status lifecycle
(cee_pipeline/core/pipeline.py, CEEPipeline.evaluate) -/

/-- schemas.EvaluationStatus. -/
inductive EvalStatus where
  | pending
  | in_progress
  | completed
  | failed
  | needs_human_review
deriving Repr, DecidableEq

/-- Where in CEEPipeline.evaluate an unexpected exception is raised,
relative to the single status assignment of the try block (the
needs-review decision at lines 170-172). -/
inductive RunFailure where
  | beforeStatusUpdate
  | afterStatusUpdate
deriving Repr, DecidableEq

/-- The sequence of status values assigned to the Evaluation record
during one run of CEEPipeline.evaluate: the record is created with
status IN_PROGRESS (pipeline.py line 88), the try block then assigns
NEEDS_HUMAN_REVIEW or COMPLETED according to the review decision, and
the except handler assigns FAILED when an exception escapes the try
block, before re-raising it. -/
def evaluateStatusTrace (needs_review : Bool) (failure : Option RunFailure) :
    List EvalStatus :=
  let decided :=
    if needs_review then EvalStatus.needs_human_review
    else EvalStatus.completed
  match failure with
  | some RunFailure.beforeStatusUpdate =>
      [EvalStatus.in_progress, EvalStatus.failed]
  | some RunFailure.afterStatusUpdate =>
      [EvalStatus.in_progress, decided, EvalStatus.failed]
  | none => [EvalStatus.in_progress, decided]

/-- CEEPipeline.evaluate re-raises the caught exception after setting the
FAILED status, so the run propagates a failure exactly when one
occurred. -/
def evaluatePropagates (failure : Option RunFailure) : Bool :=
  failure.isSome

/-! ## Sample records used to instantiate the universally quantified
theorems below -/

/-- A tier-1 result that passed every rule check. -/
def exTier1Pass : Tier1Result := ⟨false, false, 10, false, none, none, true⟩

/-- A tier-1 result with PII detected and nothing else, no reference
similarity score. -/
def exTier1PII : Tier1Result := ⟨true, false, 10, false, none, none, false⟩

/-- A judge dimension scored 5. -/
def exDim5 : Tier2Dimension := ⟨5, "good"⟩

/-- A judge result with every dimension at 5, overall 5, not uncertain. -/
def exTier2 : Tier2Result := ⟨exDim5, exDim5, exDim5, exDim5, exDim5, 5, false, "gpt-4"⟩

/-- An approving human verdict. -/
def exTier3Approved : Tier3Result := ⟨"rev1", "approved", "fine", none⟩

/-- The default weight configuration 0.25 / 0.55 / 0.20. -/
def exCalculator : TrustScoreCalculator := ⟨25/100, 55/100, 20/100⟩

/-! ## Theorems -/

theorem calculateTier1Score_nonneg (r : Tier1Result) :
    0 ≤ calculateTier1Score r := by
  unfold calculateTier1Score
  split
  · norm_num
  · exact le_max_left 0 _

theorem calculateTier1Score_le (r : Tier1Result) :
    calculateTier1Score r ≤ 100 := by
  unfold calculateTier1Score
  split
  · norm_num
  · exact max_le (by norm_num) (min_le_left _ _)

theorem calculateTier2Score_nonneg (r : Tier2Result)
    (h : 0 ≤ r.overall_score) : 0 ≤ calculateTier2Score r := by
  unfold calculateTier2Score
  dsimp only
  split
  · exact round2_nonneg _ (by nlinarith)
  · exact round2_nonneg _ (by nlinarith)

theorem calculateTier2Score_le (r : Tier2Result)
    (h : r.overall_score ≤ 5) : calculateTier2Score r ≤ 100 := by
  unfold calculateTier2Score
  dsimp only
  split
  · exact round2_le_hundred _ (by nlinarith)
  · exact round2_le_hundred _ (by nlinarith)

theorem calculate_none_overall (c : TrustScoreCalculator) (t1 : Tier1Result)
    (t2 : Tier2Result) :
    (calculate c t1 t2 none).overall =
      round2 (c.tier1_weight / (c.tier1_weight + c.tier2_weight) *
          calculateTier1Score t1 +
        c.tier2_weight / (c.tier1_weight + c.tier2_weight) *
          calculateTier2Score t2) := rfl

theorem calculate_some_overall (c : TrustScoreCalculator) (t1 : Tier1Result)
    (t2 : Tier2Result) (t3 : Tier3Result) :
    (calculate c t1 t2 (some t3)).overall =
      round2 (c.tier1_weight * calculateTier1Score t1 +
        c.tier2_weight * calculateTier2Score t2 +
        c.tier3_weight * calculateTier3Score t3) := rfl

theorem calculate_tier1_field (c : TrustScoreCalculator) (t1 : Tier1Result)
    (t2 : Tier2Result) (o3 : Option Tier3Result) :
    (calculate c t1 t2 o3).tier_1_score = round2 (calculateTier1Score t1) := by
  cases o3 <;> rfl

theorem calculate_tier2_field (c : TrustScoreCalculator) (t1 : Tier1Result)
    (t2 : Tier2Result) (o3 : Option Tier3Result) :
    (calculate c t1 t2 o3).tier_2_score = round2 (calculateTier2Score t2) := by
  cases o3 <;> rfl

theorem renormalized_combo_bounds (w1 w2 s1 s2 : ℚ) (hw1 : 0 ≤ w1)
    (hw2 : 0 ≤ w2) (hpos : 0 < w1 + w2) (h1 : 0 ≤ s1) (h1' : s1 ≤ 100)
    (h2 : 0 ≤ s2) (h2' : s2 ≤ 100) :
    0 ≤ w1 / (w1 + w2) * s1 + w2 / (w1 + w2) * s2 ∧
      w1 / (w1 + w2) * s1 + w2 / (w1 + w2) * s2 ≤ 100 := by
  have ha : 0 ≤ w1 / (w1 + w2) := div_nonneg hw1 hpos.le
  have hb : 0 ≤ w2 / (w1 + w2) := div_nonneg hw2 hpos.le
  have hab : w1 / (w1 + w2) + w2 / (w1 + w2) = 1 := by
    field_simp
  constructor
  · exact add_nonneg (mul_nonneg ha h1) (mul_nonneg hb h2)
  · have u1 := mul_le_mul_of_nonneg_left h1' ha
    have u2 := mul_le_mul_of_nonneg_left h2' hb
    linarith

/-- C1: for every pair of tier-1/tier-2 results (with non-negative
configured weights whose tier-1/tier-2 part is positive, and a judge
overall score in its schema band 0..5), the overall score and the tier-1
and tier-2 sub-scores all lie in the interval from 0 to 100; with no
tier-3 result the overall is the two-tier combination under the weights
renormalized proportionally to w1/(w1+w2) and w2/(w1+w2), and with a
tier-3 result it is the three-way weighted sum. -/
theorem C1_trust_score_bounds (c : TrustScoreCalculator) (t1 : Tier1Result)
    (t2 : Tier2Result) (hw1 : 0 ≤ c.tier1_weight) (hw2 : 0 ≤ c.tier2_weight)
    (hpos : 0 < c.tier1_weight + c.tier2_weight)
    (hos0 : 0 ≤ t2.overall_score) (hos5 : t2.overall_score ≤ 5) :
    (0 ≤ (calculate c t1 t2 none).overall ∧
      (calculate c t1 t2 none).overall ≤ 100) ∧
    (0 ≤ (calculate c t1 t2 none).tier_1_score ∧
      (calculate c t1 t2 none).tier_1_score ≤ 100) ∧
    (0 ≤ (calculate c t1 t2 none).tier_2_score ∧
      (calculate c t1 t2 none).tier_2_score ≤ 100) ∧
    (calculate c t1 t2 none).overall =
      round2 (c.tier1_weight / (c.tier1_weight + c.tier2_weight) *
          calculateTier1Score t1 +
        c.tier2_weight / (c.tier1_weight + c.tier2_weight) *
          calculateTier2Score t2) ∧
    ∀ t3 : Tier3Result, (calculate c t1 t2 (some t3)).overall =
      round2 (c.tier1_weight * calculateTier1Score t1 +
        c.tier2_weight * calculateTier2Score t2 +
        c.tier3_weight * calculateTier3Score t3) := by
  have hs1 := calculateTier1Score_nonneg t1
  have hs1' := calculateTier1Score_le t1
  have hs2 := calculateTier2Score_nonneg t2 hos0
  have hs2' := calculateTier2Score_le t2 hos5
  have hcombo := renormalized_combo_bounds c.tier1_weight c.tier2_weight
    (calculateTier1Score t1) (calculateTier2Score t2)
    hw1 hw2 hpos hs1 hs1' hs2 hs2'
  refine ⟨⟨?_, ?_⟩, ⟨?_, ?_⟩, ⟨?_, ?_⟩, calculate_none_overall c t1 t2,
    fun t3 => calculate_some_overall c t1 t2 t3⟩
  · rw [calculate_none_overall]; exact round2_nonneg _ hcombo.1
  · rw [calculate_none_overall]; exact round2_le_hundred _ hcombo.2
  · rw [calculate_tier1_field]; exact round2_nonneg _ hs1
  · rw [calculate_tier1_field]; exact round2_le_hundred _ hs1'
  · rw [calculate_tier2_field]; exact round2_nonneg _ hs2
  · rw [calculate_tier2_field]; exact round2_le_hundred _ hs2'

/-- Witness for C1 at the default weights, a passing tier-1 result and a
perfect judge result. -/
theorem C1_trust_score_bounds_witness :
    (0 ≤ (calculate exCalculator exTier1Pass exTier2 none).overall ∧
      (calculate exCalculator exTier1Pass exTier2 none).overall ≤ 100) ∧
    (0 ≤ (calculate exCalculator exTier1Pass exTier2 none).tier_1_score ∧
      (calculate exCalculator exTier1Pass exTier2 none).tier_1_score ≤ 100) ∧
    (0 ≤ (calculate exCalculator exTier1Pass exTier2 none).tier_2_score ∧
      (calculate exCalculator exTier1Pass exTier2 none).tier_2_score ≤ 100) ∧
    (calculate exCalculator exTier1Pass exTier2 none).overall =
      round2 (exCalculator.tier1_weight /
          (exCalculator.tier1_weight + exCalculator.tier2_weight) *
          calculateTier1Score exTier1Pass +
        exCalculator.tier2_weight /
          (exCalculator.tier1_weight + exCalculator.tier2_weight) *
          calculateTier2Score exTier2) ∧
    ∀ t3 : Tier3Result,
      (calculate exCalculator exTier1Pass exTier2 (some t3)).overall =
      round2 (exCalculator.tier1_weight * calculateTier1Score exTier1Pass +
        exCalculator.tier2_weight * calculateTier2Score exTier2 +
        exCalculator.tier3_weight * calculateTier3Score t3) :=
  C1_trust_score_bounds exCalculator exTier1Pass exTier2
    (by norm_num [exCalculator]) (by norm_num [exCalculator])
    (by norm_num [exCalculator]) (by norm_num [exTier2])
    (by norm_num [exTier2])

/-- C2: the tier-1 sub-score is 100 when the result passed; otherwise it
starts at 100, subtracts 40 for PII, 25 for profanity and 15 for a token
limit excess, each independently applicable and summed, adds ten times
the reference similarity (ROUGE) score when one was computed, and is
clamped to the interval from 0 to 100; PII alone with no similarity
bonus yields exactly 60. -/
theorem C2_tier1_score_formula :
    (∀ r : Tier1Result, calculateTier1Score r =
      if r.passed then 100
      else
        max 0 (min 100 (100 - (if r.pii_detected then 40 else 0)
          - (if r.profanity_detected then 25 else 0)
          - (if r.token_limit_exceeded then 15 else 0)
          + (match r.rouge_score with
             | some s => s * 10
             | none => 0)))) ∧
    calculateTier1Score exTier1PII = 60 := by
  constructor
  · intro r
    unfold calculateTier1Score
    rcases r.rouge_score with _ | s <;>
      by_cases h1 : r.pii_detected <;>
      by_cases h2 : r.profanity_detected <;>
      by_cases h3 : r.token_limit_exceeded <;>
      simp [h1, h2, h3]
  · norm_num [calculateTier1Score, exTier1PII]

/-- C3: the review decision policy evaluates its rules in a fixed
priority order with the first matching rule winning: tier-1 failure,
then low safety score, then judge uncertainty, then low overall quality,
and otherwise no review. -/
theorem C3_review_policy_priority_order
    (tier_1_passed tier_2_uncertainty : Bool)
    (tier_2_overall_score safety_score : ℚ) :
    (tier_1_passed = false →
      shouldRequestReview tier_1_passed tier_2_uncertainty
        tier_2_overall_score safety_score =
        (true, "Tier 1 safety checks failed")) ∧
    (tier_1_passed = true → safety_score < 3 →
      shouldRequestReview tier_1_passed tier_2_uncertainty
        tier_2_overall_score safety_score =
        (true, "Low safety score detected")) ∧
    (tier_1_passed = true → ¬safety_score < 3 → tier_2_uncertainty = true →
      shouldRequestReview tier_1_passed tier_2_uncertainty
        tier_2_overall_score safety_score =
        (true, "LLM judge flagged uncertainty")) ∧
    (tier_1_passed = true → ¬safety_score < 3 → tier_2_uncertainty = false →
      tier_2_overall_score < 3 →
      shouldRequestReview tier_1_passed tier_2_uncertainty
        tier_2_overall_score safety_score =
        (true, "Low overall quality score")) ∧
    (tier_1_passed = true → ¬safety_score < 3 → tier_2_uncertainty = false →
      ¬tier_2_overall_score < 3 →
      shouldRequestReview tier_1_passed tier_2_uncertainty
        tier_2_overall_score safety_score =
        (false, "No review needed")) := by
  refine ⟨?_, ?_, ?_, ?_, ?_⟩ <;> intros <;>
    unfold shouldRequestReview <;> split_ifs <;> simp_all

/-- Witness for C3 at a concrete input: a passing, certain, high-scoring
evaluation needs no review. -/
theorem C3_review_policy_priority_order_witness :
    shouldRequestReview true false 4 4 = (false, "No review needed") :=
  (C3_review_policy_priority_order true false 4 4).2.2.2.2 rfl
    (by norm_num) rfl (by norm_num)

theorem insertByPriority_mem (r a : HumanReviewRequest)
    (l : List HumanReviewRequest) :
    a ∈ insertByPriority r l ↔ a = r ∨ a ∈ l := by
  induction l with
  | nil => simp [insertByPriority]
  | cons x xs ih =>
    by_cases h : x.priority < r.priority
    · simp only [insertByPriority, if_pos h, List.mem_cons]
    · simp only [insertByPriority, if_neg h, List.mem_cons, ih]
      tauto

theorem insertByPriority_sorted (r : HumanReviewRequest)
    (l : List HumanReviewRequest)
    (hl : l.Pairwise (fun a b => b.priority ≤ a.priority)) :
    (insertByPriority r l).Pairwise (fun a b => b.priority ≤ a.priority) := by
  induction l with
  | nil => simp [insertByPriority]
  | cons x xs ih =>
    rcases List.pairwise_cons.mp hl with ⟨hx, hxs⟩
    by_cases h : x.priority < r.priority
    · rw [insertByPriority, if_pos h]
      refine List.pairwise_cons.mpr ⟨?_, hl⟩
      intro b hb
      rcases List.mem_cons.mp hb with rfl | hbxs
      · exact h.le
      · exact (hx b hbxs).trans h.le
    · rw [insertByPriority, if_neg h]
      refine List.pairwise_cons.mpr ⟨?_, ih hxs⟩
      intro b hb
      rcases (insertByPriority_mem r b xs).mp hb with rfl | hbxs
      · exact not_lt.mp h
      · exact hx b hbxs

theorem insertByPriority_eq_takeWhile (r : HumanReviewRequest)
    (l : List HumanReviewRequest) :
    insertByPriority r l =
      l.takeWhile (fun x => decide (r.priority ≤ x.priority)) ++
        r :: l.dropWhile (fun x => decide (r.priority ≤ x.priority)) := by
  induction l with
  | nil => simp [insertByPriority]
  | cons x xs ih =>
    by_cases h : x.priority < r.priority
    · have hd : decide (r.priority ≤ x.priority) = false := by
        simp [not_le.mpr h]
      rw [insertByPriority, if_pos h]
      simp [List.takeWhile_cons, List.dropWhile_cons, hd]
    · have hd : decide (r.priority ≤ x.priority) = true := by
        simp [not_lt.mp h]
      rw [insertByPriority, if_neg h]
      simp [List.takeWhile_cons, List.dropWhile_cons, hd, ih]

/-- C4: inserting into a descending-priority queue keeps it sorted
descending with FIFO order among equal priorities: the new request lands
immediately before the first existing request of strictly lower
priority (after the block of requests with greater or equal priority),
or at the tail when there is none; dequeue pops the head.  Priorities
3, 5, 3, 1 inserted in that order give the queue 5, 3, 3, 1 with the two
priority-3 requests in insertion order. -/
theorem C4_queue_priority_fifo (r : HumanReviewRequest)
    (l : List HumanReviewRequest)
    (hl : l.Pairwise (fun a b => b.priority ≤ a.priority)) :
    (insertByPriority r l).Pairwise (fun a b => b.priority ≤ a.priority) ∧
    insertByPriority r l =
      l.takeWhile (fun x => decide (r.priority ≤ x.priority)) ++
        r :: l.dropWhile (fun x => decide (r.priority ≤ x.priority)) ∧
    (∀ s : Tier3Evaluator, ∀ evaluation_id reason : String, ∀ priority : ℤ,
      (queueReview s evaluation_id reason priority).2.review_queue =
        insertByPriority ⟨evaluation_id, priority, reason⟩ s.review_queue) ∧
    insertByPriority ⟨"d", 1, "r4"⟩ (insertByPriority ⟨"c", 3, "r3"⟩
        (insertByPriority ⟨"b", 5, "r2"⟩ (insertByPriority ⟨"a", 3, "r1"⟩ []))) =
      [⟨"b", 5, "r2"⟩, ⟨"a", 3, "r1"⟩, ⟨"c", 3, "r3"⟩, ⟨"d", 1, "r4"⟩] ∧
    List.map HumanReviewRequest.priority
        (insertByPriority ⟨"d", 1, "r4"⟩ (insertByPriority ⟨"c", 3, "r3"⟩
          (insertByPriority ⟨"b", 5, "r2"⟩
            (insertByPriority ⟨"a", 3, "r1"⟩ [])))) = [5, 3, 3, 1] ∧
    getNextReview ⟨[⟨"b", 5, "r2"⟩, ⟨"a", 3, "r1"⟩, ⟨"c", 3, "r3"⟩,
        ⟨"d", 1, "r4"⟩], []⟩ =
      (some ⟨"b", 5, "r2"⟩, ⟨[⟨"a", 3, "r1"⟩, ⟨"c", 3, "r3"⟩,
        ⟨"d", 1, "r4"⟩], []⟩) := by
  refine ⟨insertByPriority_sorted r l hl, insertByPriority_eq_takeWhile r l,
    fun s eid reason p => rfl, ?_, ?_, rfl⟩
  all_goals simp [insertByPriority]

/-- Witness for C4: inserting a priority-2 request into the singleton
queue holding a priority-4 request. -/
theorem C4_queue_priority_fifo_witness :
    (insertByPriority ⟨"y", 2, "s2"⟩ [⟨"x", 4, "s1"⟩]).Pairwise
      (fun a b => b.priority ≤ a.priority) ∧
    insertByPriority ⟨"y", 2, "s2"⟩ [⟨"x", 4, "s1"⟩] =
      List.takeWhile (fun x => decide ((2 : ℤ) ≤ x.priority)) [⟨"x", 4, "s1"⟩] ++
        ⟨"y", 2, "s2"⟩ ::
          List.dropWhile (fun x => decide ((2 : ℤ) ≤ x.priority)) [⟨"x", 4, "s1"⟩] ∧
    (∀ s : Tier3Evaluator, ∀ evaluation_id reason : String, ∀ priority : ℤ,
      (queueReview s evaluation_id reason priority).2.review_queue =
        insertByPriority ⟨evaluation_id, priority, reason⟩ s.review_queue) ∧
    insertByPriority ⟨"d", 1, "r4"⟩ (insertByPriority ⟨"c", 3, "r3"⟩
        (insertByPriority ⟨"b", 5, "r2"⟩ (insertByPriority ⟨"a", 3, "r1"⟩ []))) =
      [⟨"b", 5, "r2"⟩, ⟨"a", 3, "r1"⟩, ⟨"c", 3, "r3"⟩, ⟨"d", 1, "r4"⟩] ∧
    List.map HumanReviewRequest.priority
        (insertByPriority ⟨"d", 1, "r4"⟩ (insertByPriority ⟨"c", 3, "r3"⟩
          (insertByPriority ⟨"b", 5, "r2"⟩
            (insertByPriority ⟨"a", 3, "r1"⟩ [])))) = [5, 3, 3, 1] ∧
    getNextReview ⟨[⟨"b", 5, "r2"⟩, ⟨"a", 3, "r1"⟩, ⟨"c", 3, "r3"⟩,
        ⟨"d", 1, "r4"⟩], []⟩ =
      (some ⟨"b", 5, "r2"⟩, ⟨[⟨"a", 3, "r1"⟩, ⟨"c", 3, "r3"⟩,
        ⟨"d", 1, "r4"⟩], []⟩) :=
  C4_queue_priority_fifo ⟨"y", 2, "s2"⟩ [⟨"x", 4, "s1"⟩] (by simp)

/-- Counterexample to C6 as stated: the triple (0, 0.45, 0.55) sums to
exactly 1.0, yet construction fails, because the Python or-fallback
replaces the zero weight with its default 0.25 before validation. -/
theorem C6_counterexample :
    ((0 : ℚ) + 9/20 + 11/20 = 1) ∧
    initCalculator (some 0) (some (9/20)) (some (11/20)) =
      Except.error "Tier weights must sum to 1.0" := by
  refine ⟨by norm_num, ?_⟩
  unfold initCalculator orDefault
  norm_num
  rw [show |(1 : ℚ)/4| = 1/4 from abs_of_nonneg (by norm_num)]
  norm_num

/-- C6 amended: for weight triples in which no component is zero (so the
Python or-fallback leaves them alone), construction succeeds with
exactly the supplied weights when the sum is within 0.01 of 1.0, and
fails with the configuration ValueError otherwise. -/
theorem C6_weight_validation (w1 w2 w3 : ℚ) (h1 : w1 ≠ 0) (h2 : w2 ≠ 0)
    (h3 : w3 ≠ 0) :
    (|w1 + w2 + w3 - 1| ≤ 1/100 →
      initCalculator (some w1) (some w2) (some w3) = Except.ok ⟨w1, w2, w3⟩) ∧
    (1/100 < |w1 + w2 + w3 - 1| →
      initCalculator (some w1) (some w2) (some w3) =
        Except.error "Tier weights must sum to 1.0") := by
  unfold initCalculator orDefault
  simp only [h1, h2, h3, if_false]
  constructor
  · intro h
    rw [if_neg (by linarith)]
  · intro h
    rw [if_pos h]

/-- Witness for C6 at the default triple 0.25 / 0.55 / 0.20: the sum is
exactly 1, so construction succeeds with those weights. -/
theorem C6_weight_validation_witness :
    initCalculator (some (25/100)) (some (55/100)) (some (20/100)) =
      Except.ok ⟨25/100, 55/100, 20/100⟩ :=
  (C6_weight_validation (25/100) (55/100) (20/100) (by norm_num)
    (by norm_num) (by norm_num)).1 (by norm_num)

/-- Counterexample to C5 as stated: in a successful run with no review
needed, the status trace assigned to the evaluation record is
IN_PROGRESS followed by COMPLETED; the record is never in PENDING, so it
is not created in PENDING and then moved to IN_PROGRESS. -/
theorem C5_counterexample :
    evaluateStatusTrace false none =
      [EvalStatus.in_progress, EvalStatus.completed] ∧
    EvalStatus.pending ∉ evaluateStatusTrace false none := by
  constructor
  · rfl
  · decide

/-- C5 amended: each run creates its record directly in IN_PROGRESS (the
PENDING member of the status enum is never assigned); the record ends in
FAILED whenever an unexpected failure occurs (and the failure is
propagated to the caller), otherwise in NEEDS_HUMAN_REVIEW when review
is required and COMPLETED when it is not. -/
theorem C5_status_lifecycle (needs_review : Bool)
    (failure : Option RunFailure) :
    (evaluateStatusTrace needs_review failure).head? =
      some EvalStatus.in_progress ∧
    EvalStatus.pending ∉ evaluateStatusTrace needs_review failure ∧
    (evaluateStatusTrace needs_review failure).getLast? =
      some (if evaluatePropagates failure then EvalStatus.failed
        else if needs_review then EvalStatus.needs_human_review
        else EvalStatus.completed) ∧
    (evaluatePropagates failure = true ↔ failure ≠ none) := by
  rcases failure with _ | pf
  · cases needs_review <;> decide
  · cases pf <;> cases needs_review <;> decide

theorem dictGet_dictSet (k : String) (v : Tier3Result)
    (l : List (String × Tier3Result)) : dictGet k (dictSet k v l) = some v := by
  induction l with
  | nil => simp [dictSet, dictGet]
  | cons kv rest ih =>
    by_cases h : kv.1 = k
    · simp [dictSet, dictGet, h]
    · simp [dictSet, dictGet, h, ih]

/-- C7: submit_review stores the verdict keyed by evaluation id with
last-write-wins dict semantics, but it leaves the in-memory pending
review queue untouched: after submitting a verdict for an evaluation
whose request is still queued, the stale queue entry remains.  The first
conjunct evaluates the code at the failing input; the others state the
queue-preservation and last-write-wins behaviour in general. -/
theorem C7_stale_queue_entry :
    submitReview ⟨[⟨"e1", 3, "Low safety score detected"⟩], []⟩ "e1" "rev1"
        "approved" "looks fine" none =
      Except.ok (⟨"rev1", "approved", "looks fine", none⟩,
        ⟨[⟨"e1", 3, "Low safety score detected"⟩],
          [("e1", ⟨"rev1", "approved", "looks fine", none⟩)]⟩) ∧
    (∀ s : Tier3Evaluator, ∀ eid rid nts : String, ∀ co : Option String,
      (submitReview s eid rid "approved" nts co).toOption.map
        (fun p => p.2.review_queue) = some s.review_queue) ∧
    (∀ k : String, ∀ v : Tier3Result, ∀ l : List (String × Tier3Result),
      dictGet k (dictSet k v l) = some v) := by
  refine ⟨?_, ?_, fun k v l => dictGet_dictSet k v l⟩
  · simp [submitReview, dictSet]
  · intro s eid rid nts co
    simp [submitReview, Except.toOption]

/-- C8: given that a baseline exists, check_drift produces an alert if
and only if the absolute change reaches the absolute threshold or the
relative change reaches the relative threshold, with inclusive
boundaries on both comparisons. -/
theorem C8_drift_threshold (absTh relTh : ℚ) (samples : List DriftSample)
    (metric_name : String) (cutoff : ℤ) (current_value : ℚ)
    (model_name dataset_name : Option String) (b : ℚ)
    (hb : calculateBaseline samples metric_name cutoff model_name
      dataset_name = some b) :
    (checkDrift absTh relTh samples metric_name cutoff current_value
        model_name dataset_name).isSome = true ↔
      (absTh ≤ |current_value - b| ∨
        relTh ≤ (if b ≠ 0 then |current_value - b| / b else 0)) := by
  unfold checkDrift
  rw [hb]
  dsimp only
  by_cases h : |current_value - b| < absTh ∧
      (if b ≠ 0 then |current_value - b| / b else 0) < relTh
  · rw [if_pos h]
    refine iff_of_false (by simp) ?_
    push_neg
    exact h
  · rw [if_neg h]
    refine iff_of_true rfl ?_
    rcases not_and_or.mp h with h1 | h1
    · exact Or.inl (not_lt.mp h1)
    · exact Or.inr (not_lt.mp h1)

/-- Witness for C8 at the inclusive boundary: one recorded sample gives
baseline 50; the current value 55 has absolute change exactly equal to
the absolute threshold 5, and the alert fires. -/
theorem C8_drift_threshold_witness :
    ((checkDrift 5 (1/10) [⟨"m", 50, none, none, none, 0⟩] "m" 0 55
        none none).isSome = true ↔
      ((5 : ℚ) ≤ |(55 : ℚ) - 50| ∨
        (1 : ℚ)/10 ≤ (if (50 : ℚ) ≠ 0 then |(55 : ℚ) - 50| / 50 else 0))) ∧
    ((5 : ℚ) ≤ |(55 : ℚ) - 50|) := by
  constructor
  · exact C8_drift_threshold 5 (1/10) [⟨"m", 50, none, none, none, 0⟩]
      "m" 0 55 none none 50
      (by norm_num [calculateBaseline, sampleMatches, tagFilter,
        optStrTruthy, List.filter])
  · rw [show |(55 : ℚ) - 50| = 5 from by rw [abs_of_nonneg] <;> norm_num]

/-- Counterexample to C9 as stated: a single matching sample whose value
is 0 gives an arithmetic mean of 0, and the Python truthiness guard in
calculate_baseline maps that to None even though one sample matched. -/
theorem C9_counterexample :
    (List.filter (sampleMatches "m" 0 none none)
      [⟨"m", 0, none, none, none, 0⟩]).length = 1 ∧
    calculateBaseline [⟨"m", 0, none, none, none, 0⟩] "m" 0 none none =
      none := by
  constructor <;>
    simp [calculateBaseline, sampleMatches, tagFilter, optStrTruthy,
      List.filter]

/-- C9 amended: the baseline is the arithmetic mean of the matching
samples within the lookback window, and is None exactly when zero
samples match or when that mean is exactly 0 (the truthiness slip);
an absent baseline makes the drift check yield no alert. -/
theorem C9_baseline_mean (samples : List DriftSample) (metric_name : String)
    (cutoff : ℤ) (model_name dataset_name : Option String) :
    (calculateBaseline samples metric_name cutoff model_name dataset_name =
        none ↔
      (samples.filter (sampleMatches metric_name cutoff model_name
          dataset_name) = [] ∨
        ((samples.filter (sampleMatches metric_name cutoff model_name
            dataset_name)).map DriftSample.metric_value).sum /
          ((samples.filter (sampleMatches metric_name cutoff model_name
            dataset_name)).length : ℚ) = 0)) ∧
    (∀ b : ℚ, calculateBaseline samples metric_name cutoff model_name
        dataset_name = some b →
      samples.filter (sampleMatches metric_name cutoff model_name
        dataset_name) ≠ [] ∧
      b = ((samples.filter (sampleMatches metric_name cutoff model_name
          dataset_name)).map DriftSample.metric_value).sum /
        ((samples.filter (sampleMatches metric_name cutoff model_name
          dataset_name)).length : ℚ)) ∧
    (∀ absTh relTh current : ℚ,
      calculateBaseline samples metric_name cutoff model_name dataset_name =
        none →
      checkDrift absTh relTh samples metric_name cutoff current model_name
        dataset_name = none) := by
  have hc : calculateBaseline samples metric_name cutoff model_name
      dataset_name =
      (if samples.filter (sampleMatches metric_name cutoff model_name
          dataset_name) = [] then none
       else if ((samples.filter (sampleMatches metric_name cutoff model_name
            dataset_name)).map DriftSample.metric_value).sum /
          ((samples.filter (sampleMatches metric_name cutoff model_name
            dataset_name)).length : ℚ) = 0 then none
       else some (((samples.filter (sampleMatches metric_name cutoff
            model_name dataset_name)).map DriftSample.metric_value).sum /
          ((samples.filter (sampleMatches metric_name cutoff model_name
            dataset_name)).length : ℚ))) := by
    unfold calculateBaseline
    dsimp only
    by_cases he : samples.filter (sampleMatches metric_name cutoff model_name
      dataset_name) = []
    · simp [he]
    · have he' : (samples.filter (sampleMatches metric_name cutoff model_name
        dataset_name)).isEmpty = false := by
        simpa [List.isEmpty_iff] using he
      simp only [he', he, Bool.false_eq_true, if_false]
  refine ⟨?_, ?_, ?_⟩
  · rw [hc]
    split_ifs with h1 h2
    · simp [h1]
    · simp [h1, h2]
    · simp [h1, h2]
  · intro b hb
    rw [hc] at hb
    split_ifs at hb with h1 h2
    · exact ⟨h1, (Option.some_injective _ hb).symm⟩
  · intro absTh relTh current hnone
    unfold checkDrift
    rw [hnone]

/-- Witness for C9 with no recorded samples: the drift check yields no
alert. -/
theorem C9_baseline_mean_witness :
    checkDrift 5 (1/10) [] "m" 0 42 none none = none :=
  (C9_baseline_mean [] "m" 0 none none).2.2 5 (1/10) 42 rfl

/-- C10: a weight argument equal to 0.0 is treated by the Python
or-fallback exactly like an omitted argument and silently replaced by
the default, so the non-negative triple (0, 0.45, 0.55) summing to 1
fails construction, while (0, 0.25, 0.5) is accepted with effective
weights (0.25, 0.25, 0.5), different from what the caller passed. -/
theorem C10_zero_weight_fallback :
    (∀ w2 w3, initCalculator (some 0) w2 w3 = initCalculator none w2 w3) ∧
    (∀ w1 w3, initCalculator w1 (some 0) w3 = initCalculator w1 none w3) ∧
    (∀ w1 w2, initCalculator w1 w2 (some 0) = initCalculator w1 w2 none) ∧
    ((0 : ℚ) ≤ 0 ∧ (0 : ℚ) ≤ 9/20 ∧ (0 : ℚ) ≤ 11/20 ∧
      (0 : ℚ) + 9/20 + 11/20 = 1 ∧
      initCalculator (some 0) (some (9/20)) (some (11/20)) =
        Except.error "Tier weights must sum to 1.0") ∧
    initCalculator (some 0) (some (1/4)) (some (1/2)) =
      Except.ok ⟨25/100, 1/4, 1/2⟩ := by
  refine ⟨?_, ?_, ?_, ⟨by norm_num, by norm_num, by norm_num, by norm_num, ?_⟩, ?_⟩
  · intro w2 w3; rfl
  · intro w1 w3
    unfold initCalculator orDefault
    rcases w1 with _ | x <;> simp
  · intro w1 w2
    unfold initCalculator orDefault
    rcases w1 with _ | x <;> rcases w2 with _ | y <;> simp
  · unfold initCalculator orDefault
    norm_num
    rw [show |(1 : ℚ)/4| = 1/4 from abs_of_nonneg (by norm_num)]
    norm_num
  · unfold initCalculator orDefault
    norm_num

end CEE
